import Mathlib

/-!
Shallow embedding of the waste-space backend core (usage-session engine,
rating-aggregation engine, listing/pagination and geo search), translated
from the Go sources:

* `pkg/errors/errors.go` — the error taxonomy,
* `internal/model/*.go` — the persisted entities,
* the dumpster / review / usage repositories (GORM over PostgreSQL, with
  soft deletes: the default query scope skips rows whose `deleted_at` is
  set), and
* the dumpster / review / usage services.

The relational store is modelled as explicit state (`Store`): each GORM
query becomes a pure list computation over the rows, each service
operation becomes a function `Store → Store × Except AppError α`
(the returned store is the post-state of the database, which survives
even when the operation returns an error, exactly as in the Go code
where earlier writes are not rolled back).  Times are modelled as
integer nanoseconds (Go `time.Time` / `time.Duration`), money and SQL
numeric aggregates as rationals, Go `int` as `Int`.  UUID strings are
modelled as already-parsed `Nat` identifiers; the `uuid.Parse` guard
clauses of the services (which only reject syntactically malformed
strings) are dropped.  Fresh ids produced by the database
(`gen_random_uuid()`) are passed in as an explicit `newId` argument.
Repository failures caused by the database engine itself are modelled
by a Boolean failure oracle threaded into the rating recomputation
(`updateDumpsterRating`), the one place whose failure behaviour the
specification discusses.
-/

namespace WasteSpace

/-- Error taxonomy, from `pkg/errors/errors.go` (`ErrorType`). -/
inductive ErrType where
  | notFound
  | alreadyExists
  | validation
  | unauthorized
  | forbidden
  | internal
  | badRequest
  deriving DecidableEq, Repr

/-- `AppError` from `pkg/errors/errors.go` (the wrapped `Err` chain is
dropped; only the type and message are observable in the claims). -/
structure AppError where
  typ : ErrType
  msg : String
  deriving DecidableEq, Repr

def AppError.notFound (m : String) : AppError := ⟨ErrType.notFound, m⟩
def AppError.badRequest (m : String) : AppError := ⟨ErrType.badRequest, m⟩
def AppError.forbidden (m : String) : AppError := ⟨ErrType.forbidden, m⟩
def AppError.internal (m : String) : AppError := ⟨ErrType.internal, m⟩

/-- `model.Dumpster` (`internal/model/dumpster.go`), restricted to the
fields the verified operations read or write.  `deleted` models a set
`deleted_at` timestamp (GORM soft delete). -/
structure Dumpster where
  id : Nat
  ownerId : Nat
  pricePerDay : ℚ
  isAvailable : Bool
  rating : ℚ
  reviewCount : Int
  latitude : ℚ
  longitude : ℚ
  deleted : Bool
  deriving DecidableEq, Repr

/-- `model.Review` (`internal/model/review.go`). -/
structure Review where
  id : Nat
  dumpsterId : Nat
  userId : Nat
  rating : Int
  comment : String
  deleted : Bool
  deriving DecidableEq, Repr

/-- `model.UsageStatus` (`internal/model`, usage model file). -/
inductive UsageStatus where
  | active
  | completed
  | cancelled
  deriving DecidableEq, Repr

/-- `model.DumpsterUsage` (usage model file next to `app.go`). -/
structure DumpsterUsage where
  id : Nat
  dumpsterId : Nat
  userId : Nat
  startTime : Int
  endTime : Option Int
  durationMinutes : Option Int
  totalCost : Option ℚ
  status : UsageStatus
  notes : String
  deleted : Bool
  deriving DecidableEq, Repr

/-- `dto.StartUsageRequest`. -/
structure StartUsageRequest where
  startTime : Int
  notes : String
  deriving DecidableEq, Repr

/-- `dto.EndUsageRequest`. -/
structure EndUsageRequest where
  endTime : Int
  notes : String
  deriving DecidableEq, Repr

/-- `dto.CreateReviewRequest`. -/
structure CreateReviewRequest where
  rating : Int
  comment : String
  deriving DecidableEq, Repr

/-- `dto.UpdateReviewRequest` (pointer fields become `Option`). -/
structure UpdateReviewRequest where
  rating : Option Int
  comment : Option String
  deriving DecidableEq, Repr

/-- The relational store plus the token cache, the two external
collaborators.  The cache is carried only to express frame conditions:
none of the verified operations touches it. -/
structure Store where
  dumpsters : List Dumpster
  reviews : List Review
  usages : List DumpsterUsage
  cache : List (String × String)
  deriving DecidableEq, Repr

/-! ### Repository layer -/

/-- `dumpsterRepository.GetByID`: `First` over non-deleted rows with the
given id; `gorm.ErrRecordNotFound` becomes a `NotFound` app error. -/
def dumpsterGetByID (s : Store) (id : Nat) : Except AppError Dumpster :=
  match s.dumpsters.find? (fun d => !d.deleted && d.id == id) with
  | some d => .ok d
  | none => .error (AppError.notFound "dumpster not found")

/-- `dumpsterRepository.Update`: GORM `Save`, a full-row overwrite keyed
by primary key. -/
def dumpsterRepoUpdate (s : Store) (d : Dumpster) : Store :=
  { s with dumpsters := s.dumpsters.map (fun x => if x.id == d.id then d else x) }

/-- `reviewRepository.GetByID` (non-deleted rows only). -/
def reviewGetByID (s : Store) (id : Nat) : Except AppError Review :=
  match s.reviews.find? (fun r => !r.deleted && r.id == id) with
  | some r => .ok r
  | none => .error (AppError.notFound "review not found")

/-- `reviewRepository.GetByUserAndDumpster`: `First` over non-deleted
rows; a missing row is reported as `nil, nil`, i.e. `none`. -/
def reviewGetByUserAndDumpster (s : Store) (userId dumpsterId : Nat) : Option Review :=
  s.reviews.find? (fun r => !r.deleted && r.userId == userId && r.dumpsterId == dumpsterId)

/-- The non-deleted reviews referencing a dumpster (the row set over
which both SQL aggregates in the review repository range). -/
def reviewsFor (s : Store) (dumpsterId : Nat) : List Review :=
  s.reviews.filter (fun r => !r.deleted && r.dumpsterId == dumpsterId)

/-- `reviewRepository.GetAverageRating`:
`SELECT COALESCE(AVG(rating), 0) WHERE dumpster_id = ?` under the
soft-delete scope. -/
def getAverageRating (s : Store) (dumpsterId : Nat) : ℚ :=
  let rs := reviewsFor s dumpsterId
  if rs.length = 0 then 0
  else ((rs.map (fun r => (r.rating : ℚ))).sum) / (rs.length : ℚ)

/-- `reviewRepository.GetReviewCount`: `COUNT(*)` under the soft-delete
scope. -/
def getReviewCount (s : Store) (dumpsterId : Nat) : Int :=
  ((reviewsFor s dumpsterId).length : Int)

/-- `reviewRepository.Create`: plain `INSERT`. -/
def reviewRepoCreate (s : Store) (r : Review) : Store :=
  { s with reviews := s.reviews ++ [r] }

/-- `reviewRepository.Update`: GORM `Save`, full-row overwrite by id. -/
def reviewRepoUpdate (s : Store) (r : Review) : Store :=
  { s with reviews := s.reviews.map (fun x => if x.id == r.id then r else x) }

/-- `reviewRepository.Delete`: GORM soft delete
(`UPDATE ... SET deleted_at = now() WHERE id = ? AND deleted_at IS NULL`). -/
def reviewRepoDelete (s : Store) (id : Nat) : Store :=
  { s with reviews := s.reviews.map (fun r => if r.id == id && !r.deleted then { r with deleted := true } else r) }

/-- `usageRepository.GetByID` (non-deleted rows only). -/
def usageGetByID (s : Store) (id : Nat) : Except AppError DumpsterUsage :=
  match s.usages.find? (fun u => !u.deleted && u.id == id) with
  | some u => .ok u
  | none => .error (AppError.notFound "usage not found")

/-- `usageRepository.GetActiveUsageByUserAndDumpster`: `First` over
non-deleted rows with matching user, dumpster and status `active`;
`ErrRecordNotFound` is converted to `nil, nil`. -/
def getActiveUsageByUserAndDumpster (s : Store) (userId dumpsterId : Nat) : Option DumpsterUsage :=
  s.usages.find? (fun u =>
    !u.deleted && u.userId == userId && u.dumpsterId == dumpsterId && u.status == UsageStatus.active)

/-- `usageRepository.Create`: plain `INSERT`. -/
def usageRepoCreate (s : Store) (u : DumpsterUsage) : Store :=
  { s with usages := s.usages ++ [u] }

/-- `usageRepository.Update`: GORM `Save`, full-row overwrite by id. -/
def usageRepoUpdate (s : Store) (u : DumpsterUsage) : Store :=
  { s with usages := s.usages.map (fun x => if x.id == u.id then u else x) }

/-! ### Review service (rating aggregation engine) -/

/-- `model.NewReviewFromDTO`. -/
def newReviewFromDTO (newId userId dumpsterId : Nat) (req : CreateReviewRequest) : Review :=
  { id := newId
    dumpsterId := dumpsterId
    userId := userId
    rating := req.rating
    comment := req.comment
    deleted := false }

/-- `reviewService.updateDumpsterRating`: reads both aggregates, then
overwrites the dumpster row with them.  `dbFail` is the failure oracle
for the repository calls inside the recomputation: when it is `true`
the recomputation returns an `Internal` error without writing, exactly
the net effect of any of its repository calls failing in the Go code. -/
def updateDumpsterRating (dbFail : Bool) (s : Store) (dumpsterId : Nat) : Except AppError Store :=
  if dbFail then .error (AppError.internal "failed to update dumpster rating")
  else
    let avgRating := getAverageRating s dumpsterId
    let reviewCount := getReviewCount s dumpsterId
    match dumpsterGetByID s dumpsterId with
    | .error e => .error e
    | .ok d => .ok (dumpsterRepoUpdate s { d with rating := avgRating, reviewCount := reviewCount })

/-- `reviewService.Create`.  Returns the post-state of the store next to
the result, because a failing rating recomputation does not roll back
the already-committed review insert. -/
def reviewCreate (dbFail : Bool) (s : Store) (newId userId dumpsterId : Nat)
    (req : CreateReviewRequest) : Store × Except AppError Review :=
  match dumpsterGetByID s dumpsterId with
  | .error e => (s, .error e)
  | .ok _ =>
    match reviewGetByUserAndDumpster s userId dumpsterId with
    | some _ => (s, .error (AppError.badRequest "you have already reviewed this dumpster"))
    | none =>
      let review := newReviewFromDTO newId userId dumpsterId req
      let s1 := reviewRepoCreate s review
      match updateDumpsterRating dbFail s1 dumpsterId with
      | .error e => (s1, .error e)
      | .ok s2 => (s2, .ok review)

/-- `reviewService.applyReviewUpdates`: partial update, only supplied
fields change. -/
def applyReviewUpdates (review : Review) (req : UpdateReviewRequest) : Review :=
  { review with
    rating := req.rating.getD review.rating
    comment := req.comment.getD review.comment }

/-- `reviewService.Update`. -/
def reviewUpdate (dbFail : Bool) (s : Store) (userId reviewId : Nat)
    (req : UpdateReviewRequest) : Store × Except AppError Review :=
  match reviewGetByID s reviewId with
  | .error e => (s, .error e)
  | .ok review =>
    if review.userId ≠ userId then
      (s, .error (AppError.forbidden "you do not have permission to update this review"))
    else
      let review' := applyReviewUpdates review req
      let s1 := reviewRepoUpdate s review'
      match updateDumpsterRating dbFail s1 review'.dumpsterId with
      | .error e => (s1, .error e)
      | .ok s2 => (s2, .ok review')

/-- `reviewService.Delete`. -/
def reviewDelete (dbFail : Bool) (s : Store) (userId reviewId : Nat) :
    Store × Except AppError Unit :=
  match reviewGetByID s reviewId with
  | .error e => (s, .error e)
  | .ok review =>
    if review.userId ≠ userId then
      (s, .error (AppError.forbidden "you do not have permission to delete this review"))
    else
      let s1 := reviewRepoDelete s reviewId
      match updateDumpsterRating dbFail s1 review.dumpsterId with
      | .error e => (s1, .error e)
      | .ok s2 => (s2, .ok ())

/-! ### Usage service (usage-session engine) -/

/-- `model.NewDumpsterUsageFromDTO` (`internal/app/app.go` region):
status `active`, start time as given, end time / duration / cost unset. -/
def newDumpsterUsageFromDTO (newId userId dumpsterId : Nat)
    (req : StartUsageRequest) : DumpsterUsage :=
  { id := newId
    dumpsterId := dumpsterId
    userId := userId
    startTime := req.startTime
    endTime := none
    durationMinutes := none
    totalCost := none
    status := UsageStatus.active
    notes := req.notes
    deleted := false }

/-- `usageService.StartUsage`. -/
def startUsage (s : Store) (newId userId dumpsterId : Nat)
    (req : StartUsageRequest) : Store × Except AppError DumpsterUsage :=
  match dumpsterGetByID s dumpsterId with
  | .error e => (s, .error e)
  | .ok dumpster =>
    if !dumpster.isAvailable then
      (s, .error (AppError.badRequest "dumpster is not available"))
    else
      match getActiveUsageByUserAndDumpster s userId dumpsterId with
      | some _ => (s, .error (AppError.badRequest "you already have an active usage session for this dumpster"))
      | none =>
        let usage := newDumpsterUsageFromDTO newId userId dumpsterId req
        (usageRepoCreate s usage, .ok usage)

/-- Nanoseconds per minute (`time.Duration.Minutes` divides by this). -/
def nsPerMinute : Int := 60000000000

/-- `usageService.calculateCost`: `(pricePerDay / (24*60)) * durationMinutes`. -/
def calculateCost (pricePerDay : ℚ) (durationMinutes : Int) : ℚ :=
  (pricePerDay / (24 * 60)) * (durationMinutes : ℚ)

/-- `usageService.EndUsage`.  Go `int(d.Minutes())` truncates toward
zero, hence `Int.tdiv`. -/
def endUsage (s : Store) (userId usageId : Nat)
    (req : EndUsageRequest) : Store × Except AppError DumpsterUsage :=
  match usageGetByID s usageId with
  | .error e => (s, .error e)
  | .ok usage =>
    if usage.userId ≠ userId then
      (s, .error (AppError.forbidden "you do not have permission to end this usage session"))
    else if usage.status ≠ UsageStatus.active then
      (s, .error (AppError.badRequest "usage session is not active"))
    else if req.endTime < usage.startTime then
      (s, .error (AppError.badRequest "end time must be after start time"))
    else
      let duration : Int := Int.tdiv (req.endTime - usage.startTime) nsPerMinute
      match dumpsterGetByID s usage.dumpsterId with
      | .error e => (s, .error e)
      | .ok dumpster =>
        let totalCost := calculateCost dumpster.pricePerDay duration
        let usage' : DumpsterUsage :=
          { usage with
            endTime := some req.endTime
            durationMinutes := some duration
            totalCost := some totalCost
            status := UsageStatus.completed
            notes := if req.notes ≠ "" then req.notes else usage.notes }
        (usageRepoUpdate s usage', .ok usage')

/-! ### Pagination (shared by every repository list and every service
list-response builder) -/

/-- The repositories all compute `page := max(req.Page, 1)`. -/
def repoEffectivePage (page : Int) : Int := max page 1

/-- The repositories all compute `limit := max(req.Limit, 20)` and then
clamp it to `100` (`defaultPageSize` / `maxPageSize`). -/
def repoEffectiveLimit (limit : Int) : Int :=
  let l := max limit 20
  if l > 100 then 100 else l

/-- The `LIMIT ... OFFSET ...` window a repository list query fetches
from the ordered row set. -/
def repoPageWindow {α : Type} (page limit : Int) (rows : List α) : List α :=
  (rows.drop ((repoEffectivePage page - 1) * repoEffectiveLimit limit).toNat).take
    (repoEffectiveLimit limit).toNat

/-- `-((-a).fdiv b)`: the integer ceiling division that
`int(math.Ceil(float64(a) / float64(b)))` performs (exactly, for the
integer magnitudes a row count can take: the float arithmetic is exact
there).  `goCeilDiv_eq_ceil` below identifies it with `⌈a / b⌉`. -/
def goCeilDiv (a b : Int) : Int := -((-a).fdiv b)

/-- The pagination metadata of a list response. -/
structure ListMeta where
  total : Int
  page : Int
  limit : Int
  totalPages : Int
  deriving DecidableEq, Repr

/-- The shared shape of `buildDumpsterListResponse`,
`buildUsageListResponse` and `buildReviewListResponse`:
`page := max(page, 1)`, `limit := max(limit, 1)`,
`totalPages := ceil(total / limit)`. -/
def buildListMeta (total page limit : Int) : ListMeta :=
  let page := max page 1
  let limit := max limit 1
  { total := total
    page := page
    limit := limit
    totalPages := goCeilDiv total limit }

/-! ### Geo search (`dumpsterRepository.FindNearby`) -/

/-- `radians(x)` of SQL: degrees to radians. -/
noncomputable def radians (x : ℝ) : ℝ := x * Real.pi / 180

/-- The distance expression of the raw SQL in
`dumpsterRepository.FindNearby`, verbatim:
`R * acos(cos(radians(lat1)) * cos(radians(latitude)) *
cos(radians(longitude) - radians(lng1)) +
sin(radians(lat1)) * sin(radians(latitude)))`. -/
noncomputable def sqlDistance (r lat1 lng1 lat lng : ℝ) : ℝ :=
  r * Real.arccos (Real.cos (radians lat1) * Real.cos (radians lat) *
    Real.cos (radians lng - radians lng1) +
    Real.sin (radians lat1) * Real.sin (radians lat))

/-- The distance formula as the specification words it:
`R * acos(cos(rad(lat1))·cos(rad(lat2))·cos(rad(lng2-lng1)) +
sin(rad(lat1))·sin(rad(lat2)))`.  Stated separately so it can be
compared with the SQL expression. -/
noncomputable def specDistance (r lat1 lng1 lat lng : ℝ) : ℝ :=
  r * Real.arccos (Real.cos (radians lat1) * Real.cos (radians lat) *
    Real.cos (radians (lng - lng1)) +
    Real.sin (radians lat1) * Real.sin (radians lat))

/-- `defaultNearbyDistance` from the dumpster repository. -/
def defaultNearbyDistance : ℚ := 25

/-- The effective `LIMIT` of `FindNearby`: `max(req.Limit, 20)`
(`defaultPageSize`); unlike the offset-paginated lists it is never
clamped to 100. -/
def nearbyEffectiveLimit (limit : Int) : Int := max limit 20

/-- The query pipeline of `dumpsterRepository.FindNearby`, with the
row-distance valuation abstracted into `dist` (in the SQL it is
`sqlDistance earthRadiusKm req.lat req.lng latitude longitude`
evaluated per row): keep the non-deleted rows, keep those with
`distance < maxDistance` (default 25), order by distance ascending,
`LIMIT max(req.Limit, 20)`.  Generic in the ordered value type so the
structural theorems cover the real-valued SQL instance. -/
def findNearby {β : Type} [LinearOrder β] (dist : Dumpster → β)
    (rows : List Dumpster) (maxDistance : Option β) (default25 : β)
    (reqLimit : Int) : List Dumpster :=
  let maxD := maxDistance.getD default25
  let qualifying := rows.filter (fun d => !d.deleted && decide (dist d < maxD))
  let sorted := List.insertionSort (fun a b => dist a ≤ dist b) qualifying
  sorted.take (nearbyEffectiveLimit reqLimit).toNat

instance {ε α : Type} [DecidableEq ε] [DecidableEq α] : DecidableEq (Except ε α) := fun x y =>
  match x, y with
  | .error a, .error b => decidable_of_iff (a = b) (by simp)
  | .ok a, .ok b => decidable_of_iff (a = b) (by simp)
  | .error _, .ok _ => isFalse (by simp)
  | .ok _, .error _ => isFalse (by simp)

/-! ### Derived predicates used by the claims -/

/-- A non-deleted dumpster row with the given id exists. -/
def dumpsterExists (s : Store) (i : Nat) : Prop :=
  ∃ d ∈ s.dumpsters, d.deleted = false ∧ d.id = i

/-- A non-deleted `active` session for the (user, dumpster) pair exists. -/
def hasActiveUsage (s : Store) (userId dumpsterId : Nat) : Prop :=
  ∃ u ∈ s.usages, u.deleted = false ∧ u.userId = userId ∧
    u.dumpsterId = dumpsterId ∧ u.status = UsageStatus.active

/-- The denormalized aggregates of every dumpster row with the given id
agree with the non-deleted reviews referencing it. -/
def aggConsistent (s : Store) (i : Nat) : Prop :=
  ∀ d ∈ s.dumpsters, d.id = i →
    d.rating = getAverageRating s i ∧ d.reviewCount = getReviewCount s i

/-! ### Shared lemmas -/

theorem dumpsterGetByID_ok {s : Store} {i : Nat} {d : Dumpster}
    (h : dumpsterGetByID s i = .ok d) :
    d ∈ s.dumpsters ∧ d.deleted = false ∧ d.id = i := by
  unfold dumpsterGetByID at h
  cases hf : s.dumpsters.find? (fun d => !d.deleted && d.id == i) with
  | none => rw [hf] at h; exact absurd h (by simp)
  | some x =>
    rw [hf] at h
    simp only [Except.ok.injEq] at h
    subst h
    have hmem := List.mem_of_find?_eq_some hf
    have hp := List.find?_some hf
    simp only [Bool.and_eq_true, Bool.not_eq_true', beq_iff_eq] at hp
    exact ⟨hmem, hp.1, hp.2⟩

theorem dumpsterGetByID_of_not_exists {s : Store} {i : Nat}
    (h : ¬ dumpsterExists s i) :
    dumpsterGetByID s i = .error (AppError.notFound "dumpster not found") := by
  unfold dumpsterGetByID
  have hf : s.dumpsters.find? (fun d => !d.deleted && d.id == i) = none := by
    rw [List.find?_eq_none]
    intro x hx hp
    simp only [Bool.and_eq_true, Bool.not_eq_true', beq_iff_eq] at hp
    exact h ⟨x, hx, hp.1, hp.2⟩
  rw [hf]

theorem dumpsterExists_of_getByID_ok {s : Store} {i : Nat} {d : Dumpster}
    (h : dumpsterGetByID s i = .ok d) : dumpsterExists s i := by
  obtain ⟨hm, hd, hi⟩ := dumpsterGetByID_ok h
  exact ⟨d, hm, hd, hi⟩

theorem getActiveUsage_isSome_iff {s : Store} {userId dumpsterId : Nat} :
    (getActiveUsageByUserAndDumpster s userId dumpsterId).isSome ↔
      hasActiveUsage s userId dumpsterId := by
  unfold getActiveUsageByUserAndDumpster hasActiveUsage
  rw [List.find?_isSome]
  constructor
  · rintro ⟨x, hx, hp⟩
    simp only [Bool.and_eq_true, Bool.not_eq_true', beq_iff_eq] at hp
    exact ⟨x, hx, hp.1.1.1, hp.1.1.2, hp.1.2, hp.2⟩
  · rintro ⟨x, hx, h1, h2, h3, h4⟩
    refine ⟨x, hx, ?_⟩
    simp [h1, h2, h3, h4]

theorem goCeilDiv_eq_ceil {a b : Int} (hb : 0 < b) :
    goCeilDiv a b = ⌈(a : ℚ) / (b : ℚ)⌉ := by
  have hbq : ((b.toNat : ℕ) : ℚ) = (b : ℚ) := by
    norm_cast
    omega
  have hceil : ⌈(a : ℚ) / (b : ℚ)⌉ = -⌊-((a : ℚ) / (b : ℚ))⌋ := rfl
  rw [hceil]
  have hneg : -((a : ℚ) / (b : ℚ)) = ((-a : ℤ) : ℚ) / ((b.toNat : ℕ) : ℚ) := by
    rw [hbq]
    push_cast
    ring
  rw [hneg, Rat.floor_intCast_div_natCast]
  unfold goCeilDiv
  rw [Int.fdiv_eq_ediv _ (by omega)]
  congr 1
  congr 1
  omega

theorem fdiv_nsPerMinute_eq_floor (x : Int) :
    Int.fdiv x nsPerMinute = ⌊(x : ℚ) / (nsPerMinute : ℚ)⌋ := by
  have h1 : ((nsPerMinute : ℤ) : ℚ) = (((60000000000 : ℕ) : ℕ) : ℚ) := by
    norm_num [nsPerMinute]
  rw [h1, Rat.floor_intCast_div_natCast]
  rw [Int.fdiv_eq_ediv _ (by norm_num [nsPerMinute])]
  rfl

/-! ### Example fixtures for witnesses and counterexamples -/

/-- An available dumpster priced 72 per day. -/
def exDumpster : Dumpster := ⟨0, 5, 72, true, 0, 0, 10, 20, false⟩

/-- An active session of user 1 on `exDumpster` started at time 0. -/
def exActiveUsage : DumpsterUsage :=
  ⟨20, 0, 1, 0, none, none, none, UsageStatus.active, "n", false⟩

/-- A store holding `exDumpster` and `exActiveUsage`. -/
def exStore : Store := ⟨[exDumpster], [], [exActiveUsage], []⟩

/-! ### Claims -/

/-- C2: on a successful `EndUsage` of a session with start time `s` and
supplied end time `e`, `durationMinutes = floor((e - s) in minutes)`
(Go truncation `int(d.Minutes())` agrees with the floor because success
forces `e ≥ s`) and `totalCost = (pricePerDay / 1440) * durationMinutes`
where `pricePerDay` is the owning dumpster's current daily price; for
`pricePerDay = 72` and a 60-minute duration, `totalCost = 3`. -/
theorem endUsage_cost_formula (s : Store) (userId usageId : Nat)
    (req : EndUsageRequest) (usage : DumpsterUsage) (d : Dumpster)
    (s' : Store) (u' : DumpsterUsage)
    (hu : usageGetByID s usageId = .ok usage)
    (hd : dumpsterGetByID s usage.dumpsterId = .ok d)
    (hrun : endUsage s userId usageId req = (s', .ok u')) :
    u'.durationMinutes = some ⌊((req.endTime - usage.startTime : ℤ) : ℚ) / (nsPerMinute : ℚ)⌋ ∧
    u'.totalCost = some ((d.pricePerDay / 1440) *
      ((⌊((req.endTime - usage.startTime : ℤ) : ℚ) / (nsPerMinute : ℚ)⌋ : ℤ) : ℚ)) ∧
    calculateCost 72 60 = 3 := by
  unfold endUsage at hrun
  simp only [hu] at hrun
  split at hrun
  · exact absurd hrun (by simp)
  split at hrun
  · exact absurd hrun (by simp)
  split at hrun
  · exact absurd hrun (by simp)
  next hne =>
    simp only [hd, Prod.mk.injEq, Except.ok.injEq] at hrun
    obtain ⟨-, hu'⟩ := hrun
    subst hu'
    have htd : Int.tdiv (req.endTime - usage.startTime) nsPerMinute =
        Int.fdiv (req.endTime - usage.startTime) nsPerMinute := by
      rw [Int.tdiv_eq_ediv (by omega) (by norm_num [nsPerMinute]),
        Int.fdiv_eq_ediv _ (by norm_num [nsPerMinute])]
    refine ⟨?_, ?_, ?_⟩
    · simp only [htd, fdiv_nsPerMinute_eq_floor]
    · simp only [htd, fdiv_nsPerMinute_eq_floor, calculateCost]
      norm_num
    · unfold calculateCost
      norm_num

set_option maxRecDepth 10000 in
/-- Witness for C2 at a concrete store: ending the session started at
time 0 after exactly 60 minutes on a dumpster priced 72 per day. -/
theorem endUsage_cost_formula_witness :
    (⟨20, 0, 1, 0, some 3600000000000, some 60, some 3,
        UsageStatus.completed, "n", false⟩ : DumpsterUsage).durationMinutes =
      some ⌊(((3600000000000 : Int) - (exActiveUsage.startTime) : ℤ) : ℚ) / (nsPerMinute : ℚ)⌋ ∧
    (⟨20, 0, 1, 0, some 3600000000000, some 60, some 3,
        UsageStatus.completed, "n", false⟩ : DumpsterUsage).totalCost =
      some ((exDumpster.pricePerDay / 1440) *
        ((⌊(((3600000000000 : Int) - (exActiveUsage.startTime) : ℤ) : ℚ) / (nsPerMinute : ℚ)⌋ : ℤ) : ℚ)) ∧
    calculateCost 72 60 = 3 :=
  endUsage_cost_formula exStore 1 20 ⟨3600000000000, ""⟩ exActiveUsage exDumpster
    { exStore with usages := [⟨20, 0, 1, 0, some 3600000000000, some 60, some 3,
        UsageStatus.completed, "n", false⟩] }
    ⟨20, 0, 1, 0, some 3600000000000, some 60, some 3,
        UsageStatus.completed, "n", false⟩
    (by decide) (by decide)
    (by
      have htd : Int.tdiv (3600000000000 : Int) nsPerMinute = 60 := by decide
      unfold endUsage
      norm_num [usageGetByID, exStore, exActiveUsage, usageRepoUpdate, calculateCost,
        dumpsterGetByID, exDumpster, htd])

/-- C3 (counterexample): the claim says `EndUsage` with
`endTime ≤ startTime` always fails with `BadRequest`, but the guard in
the code is `req.EndTime.Before(usage.StartTime)`, a strict `<`: ending
the example session (start time 0, owned by user 1, active) with
`endTime = 0 = startTime` is accepted and completes the session with a
zero duration and zero cost. -/
theorem endUsage_equal_time_accepted :
    (⟨(0 : Int), "x"⟩ : EndUsageRequest).endTime ≤ exActiveUsage.startTime ∧
    endUsage exStore 1 20 ⟨(0 : Int), "x"⟩ =
      ({ exStore with usages := [⟨20, 0, 1, 0, some 0, some 0, some 0,
          UsageStatus.completed, "x", false⟩] },
       Except.ok ⟨20, 0, 1, 0, some 0, some 0, some 0,
          UsageStatus.completed, "x", false⟩) := by
  constructor
  · decide
  · have htd : Int.tdiv (0 : Int) nsPerMinute = 0 := by decide
    unfold endUsage
    norm_num [usageGetByID, exStore, exActiveUsage, usageRepoUpdate, calculateCost,
      dumpsterGetByID, exDumpster, htd]
    exact fun h => absurd h (by decide)

/-- C3 (amended): for every usage session, calling `EndUsage` with an
`endTime` strictly before the session's `startTime` fails with
`BadRequest` ("end time must be after start time") and leaves the store
— in particular the session row — unchanged; an `endTime` equal to
`startTime` is accepted (the code checks `endTime.Before(startTime)`,
not `≤`). -/
theorem endUsage_endTime_before_start (s : Store) (userId usageId : Nat)
    (req : EndUsageRequest) (usage : DumpsterUsage)
    (hu : usageGetByID s usageId = .ok usage)
    (howner : usage.userId = userId)
    (hactive : usage.status = UsageStatus.active)
    (hlt : req.endTime < usage.startTime) :
    endUsage s userId usageId req =
      (s, .error (AppError.badRequest "end time must be after start time")) := by
  unfold endUsage
  simp [hu, howner, hactive, hlt]

/-- Witness for C3's amended theorem: ending the example session
(start time 0) at time `-1` is rejected with `BadRequest` and the store
is unchanged. -/
theorem endUsage_endTime_before_start_witness :
    endUsage exStore 1 20 ⟨(-1 : Int), ""⟩ =
      (exStore, .error (AppError.badRequest "end time must be after start time")) :=
  endUsage_endTime_before_start exStore 1 20 ⟨(-1 : Int), ""⟩ exActiveUsage
    (by decide) (by decide) (by decide) (by decide)

/-- C4: `StartUsage` fails with `NotFound` when the dumpster does not
exist (as a non-deleted row), fails with `BadRequest` when it exists
but is unavailable, fails with `BadRequest` when a non-deleted `active`
session for the (user, dumpster) pair already exists, and succeeds
(creating the new session) exactly when all three preconditions hold. -/
theorem startUsage_preconditions (s : Store) (newId userId dumpsterId : Nat)
    (req : StartUsageRequest) :
    (¬ dumpsterExists s dumpsterId →
      startUsage s newId userId dumpsterId req =
        (s, .error (AppError.notFound "dumpster not found"))) ∧
    (∀ d, dumpsterGetByID s dumpsterId = .ok d → d.isAvailable = false →
      startUsage s newId userId dumpsterId req =
        (s, .error (AppError.badRequest "dumpster is not available"))) ∧
    (∀ d, dumpsterGetByID s dumpsterId = .ok d → d.isAvailable = true →
      hasActiveUsage s userId dumpsterId →
      startUsage s newId userId dumpsterId req =
        (s, .error (AppError.badRequest "you already have an active usage session for this dumpster"))) ∧
    (∀ d, dumpsterGetByID s dumpsterId = .ok d → d.isAvailable = true →
      ¬ hasActiveUsage s userId dumpsterId →
      startUsage s newId userId dumpsterId req =
        (usageRepoCreate s (newDumpsterUsageFromDTO newId userId dumpsterId req),
         .ok (newDumpsterUsageFromDTO newId userId dumpsterId req))) := by
  refine ⟨?_, ?_, ?_, ?_⟩
  · intro hne
    unfold startUsage
    rw [dumpsterGetByID_of_not_exists hne]
  · intro d hd hav
    unfold startUsage
    simp [hd, hav]
  · intro d hd hav hact
    rw [← getActiveUsage_isSome_iff] at hact
    obtain ⟨u, hu⟩ := Option.isSome_iff_exists.mp hact
    unfold startUsage
    simp [hd, hav, hu]
  · intro d hd hav hact
    rw [← getActiveUsage_isSome_iff] at hact
    have hnone : getActiveUsageByUserAndDumpster s userId dumpsterId = none :=
      Option.not_isSome_iff_eq_none.mp hact
    unfold startUsage
    simp [hd, hav, hnone]

/-- Witness for C4: in a store whose only dumpster is available and
that has no session rows at all, `StartUsage` succeeds and appends the
new active session. -/
theorem startUsage_preconditions_witness :
    startUsage ⟨[exDumpster], [], [], []⟩ 21 1 0 ⟨5, "w"⟩ =
      (usageRepoCreate ⟨[exDumpster], [], [], []⟩ (newDumpsterUsageFromDTO 21 1 0 ⟨5, "w"⟩),
       .ok (newDumpsterUsageFromDTO 21 1 0 ⟨5, "w"⟩)) :=
  (startUsage_preconditions ⟨[exDumpster], [], [], []⟩ 21 1 0 ⟨5, "w"⟩).2.2.2
    exDumpster (by decide) (by decide)
    (by
      intro h
      obtain ⟨u, hu, -⟩ := h
      simp at hu)

/-- C9: on success `StartUsage` appends exactly one new session — with
status `active`, the supplied start time and notes, and no end time,
duration or cost — and modifies nothing else: dumpsters (hence every
`isAvailable` flag), reviews and the token cache are untouched. -/
theorem startUsage_frame (s : Store) (newId userId dumpsterId : Nat)
    (req : StartUsageRequest) (s' : Store) (usage : DumpsterUsage)
    (hrun : startUsage s newId userId dumpsterId req = (s', .ok usage)) :
    s'.usages = s.usages ++ [usage] ∧
    usage.status = UsageStatus.active ∧
    usage.startTime = req.startTime ∧
    usage.endTime = none ∧
    usage.durationMinutes = none ∧
    usage.totalCost = none ∧
    usage.notes = req.notes ∧
    s'.dumpsters = s.dumpsters ∧
    s'.reviews = s.reviews ∧
    s'.cache = s.cache := by
  unfold startUsage at hrun
  cases hd : dumpsterGetByID s dumpsterId with
  | error e => rw [hd] at hrun; exact absurd hrun (by simp)
  | ok d =>
    rw [hd] at hrun
    simp only at hrun
    split at hrun
    · exact absurd hrun (by simp)
    · cases hact : getActiveUsageByUserAndDumpster s userId dumpsterId with
      | some u => rw [hact] at hrun; exact absurd hrun (by simp)
      | none =>
        rw [hact] at hrun
        simp only [Prod.mk.injEq, Except.ok.injEq] at hrun
        obtain ⟨hs', husage⟩ := hrun
        subst hs'
        subst husage
        simp [usageRepoCreate, newDumpsterUsageFromDTO]

/-- Witness for C9 at the concrete successful start from the C4
witness. -/
theorem startUsage_frame_witness :
    (usageRepoCreate ⟨[exDumpster], [], [], []⟩ (newDumpsterUsageFromDTO 21 1 0 ⟨5, "w"⟩)).usages =
      (⟨[exDumpster], [], [], []⟩ : Store).usages ++ [newDumpsterUsageFromDTO 21 1 0 ⟨5, "w"⟩] ∧
    (newDumpsterUsageFromDTO 21 1 0 ⟨5, "w"⟩).status = UsageStatus.active ∧
    (newDumpsterUsageFromDTO 21 1 0 ⟨5, "w"⟩).startTime = (⟨5, "w"⟩ : StartUsageRequest).startTime ∧
    (newDumpsterUsageFromDTO 21 1 0 ⟨5, "w"⟩).endTime = none ∧
    (newDumpsterUsageFromDTO 21 1 0 ⟨5, "w"⟩).durationMinutes = none ∧
    (newDumpsterUsageFromDTO 21 1 0 ⟨5, "w"⟩).totalCost = none ∧
    (newDumpsterUsageFromDTO 21 1 0 ⟨5, "w"⟩).notes = (⟨5, "w"⟩ : StartUsageRequest).notes ∧
    (usageRepoCreate ⟨[exDumpster], [], [], []⟩ (newDumpsterUsageFromDTO 21 1 0 ⟨5, "w"⟩)).dumpsters =
      (⟨[exDumpster], [], [], []⟩ : Store).dumpsters ∧
    (usageRepoCreate ⟨[exDumpster], [], [], []⟩ (newDumpsterUsageFromDTO 21 1 0 ⟨5, "w"⟩)).reviews =
      (⟨[exDumpster], [], [], []⟩ : Store).reviews ∧
    (usageRepoCreate ⟨[exDumpster], [], [], []⟩ (newDumpsterUsageFromDTO 21 1 0 ⟨5, "w"⟩)).cache =
      (⟨[exDumpster], [], [], []⟩ : Store).cache :=
  startUsage_frame ⟨[exDumpster], [], [], []⟩ 21 1 0 ⟨5, "w"⟩
    (usageRepoCreate ⟨[exDumpster], [], [], []⟩ (newDumpsterUsageFromDTO 21 1 0 ⟨5, "w"⟩))
    (newDumpsterUsageFromDTO 21 1 0 ⟨5, "w"⟩) (by decide)

theorem getAverageRating_congr {s t : Store} (h : s.reviews = t.reviews) (i : Nat) :
    getAverageRating s i = getAverageRating t i := by
  unfold getAverageRating reviewsFor
  rw [h]

theorem getReviewCount_congr {s t : Store} (h : s.reviews = t.reviews) (i : Nat) :
    getReviewCount s i = getReviewCount t i := by
  unfold getReviewCount reviewsFor
  rw [h]

theorem updateDumpsterRating_ok {s s' : Store} {i : Nat}
    (h : updateDumpsterRating false s i = .ok s') :
    s'.reviews = s.reviews ∧ aggConsistent s' i := by
  unfold updateDumpsterRating at h
  simp only [Bool.false_eq_true, if_false] at h
  cases hd : dumpsterGetByID s i with
  | error e => rw [hd] at h; exact absurd h (by simp)
  | ok d =>
    rw [hd] at h
    simp only [Except.ok.injEq] at h
    subst h
    obtain ⟨hm, hdel, hid⟩ := dumpsterGetByID_ok hd
    have hrev : (dumpsterRepoUpdate s
        { d with rating := getAverageRating s i, reviewCount := getReviewCount s i }).reviews
        = s.reviews := rfl
    refine ⟨hrev, ?_⟩
    intro y hy hyid
    rw [getAverageRating_congr hrev i, getReviewCount_congr hrev i]
    simp only [dumpsterRepoUpdate, List.mem_map] at hy
    obtain ⟨x, hx, hfx⟩ := hy
    by_cases hxid : x.id = d.id
    · simp only [hxid, beq_self_eq_true, if_true] at hfx
      subst hfx
      exact ⟨rfl, rfl⟩
    · simp only [beq_eq_false_iff_ne.mpr hxid, Bool.false_eq_true, if_false] at hfx
      subst hfx
      exact absurd (hyid.trans hid.symm) hxid

theorem dumpsterExists_getByID {s : Store} {i : Nat}
    (h : dumpsterExists s i) : ∃ d, dumpsterGetByID s i = .ok d := by
  obtain ⟨d, hm, hdel, hid⟩ := h
  have : (s.dumpsters.find? (fun x => !x.deleted && x.id == i)).isSome := by
    rw [List.find?_isSome]
    exact ⟨d, hm, by simp [hdel, hid]⟩
  obtain ⟨x, hx⟩ := Option.isSome_iff_exists.mp this
  exact ⟨x, by unfold dumpsterGetByID; rw [hx]⟩

/-- C1: after every accepted review `Create`, `Update` or `Delete`
touching a dumpster `D` (modelled with the failure oracle off, since an
operation whose recomputation fails is not accepted), every dumpster
row with `D`'s id carries `reviewCount` equal to the number of
non-deleted reviews referencing `D` and `rating` equal to their average
(0 when there are none) — the freshly recomputed values written back by
`updateDumpsterRating` as a full overwrite of the row, not an
incremental adjustment. -/
theorem review_mutations_recompute_aggregates :
    (∀ (s : Store) (newId userId dumpsterId : Nat) (req : CreateReviewRequest)
       (s' : Store) (r : Review),
       reviewCreate false s newId userId dumpsterId req = (s', .ok r) →
       aggConsistent s' dumpsterId) ∧
    (∀ (s : Store) (userId reviewId : Nat) (req : UpdateReviewRequest)
       (s' : Store) (r : Review),
       reviewUpdate false s userId reviewId req = (s', .ok r) →
       aggConsistent s' r.dumpsterId) ∧
    (∀ (s : Store) (userId reviewId : Nat) (r0 : Review) (s' : Store),
       reviewGetByID s reviewId = .ok r0 →
       reviewDelete false s userId reviewId = (s', .ok ()) →
       aggConsistent s' r0.dumpsterId) := by
  refine ⟨?_, ?_, ?_⟩
  · intro s newId userId dumpsterId req s' r h
    unfold reviewCreate at h
    cases hd : dumpsterGetByID s dumpsterId with
    | error e => rw [hd] at h; exact absurd h (by simp)
    | ok d =>
      rw [hd] at h
      cases hex : reviewGetByUserAndDumpster s userId dumpsterId with
      | some x => rw [hex] at h; exact absurd h (by simp)
      | none =>
        rw [hex] at h
        simp only at h
        cases hupd : updateDumpsterRating false
            (reviewRepoCreate s (newReviewFromDTO newId userId dumpsterId req)) dumpsterId with
        | error e => rw [hupd] at h; exact absurd h (by simp)
        | ok s2 =>
          rw [hupd] at h
          simp only [Prod.mk.injEq, Except.ok.injEq] at h
          obtain ⟨hs', -⟩ := h
          subst hs'
          exact (updateDumpsterRating_ok hupd).2
  · intro s userId reviewId req s' r h
    unfold reviewUpdate at h
    cases hg : reviewGetByID s reviewId with
    | error e => rw [hg] at h; exact absurd h (by simp)
    | ok review =>
      rw [hg] at h
      simp only at h
      split at h
      · exact absurd h (by simp)
      · cases hupd : updateDumpsterRating false
            (reviewRepoUpdate s (applyReviewUpdates review req))
            (applyReviewUpdates review req).dumpsterId with
        | error e => rw [hupd] at h; exact absurd h (by simp)
        | ok s2 =>
          rw [hupd] at h
          simp only [Prod.mk.injEq, Except.ok.injEq] at h
          obtain ⟨hs', hr⟩ := h
          subst hs'
          subst hr
          exact (updateDumpsterRating_ok hupd).2
  · intro s userId reviewId r0 s' hg h
    unfold reviewDelete at h
    rw [hg] at h
    simp only at h
    split at h
    · exact absurd h (by simp)
    · cases hupd : updateDumpsterRating false (reviewRepoDelete s reviewId) r0.dumpsterId with
      | error e => rw [hupd] at h; exact absurd h (by simp)
      | ok s2 =>
        rw [hupd] at h
        simp only [Prod.mk.injEq, Except.ok.injEq] at h
        obtain ⟨hs', -⟩ := h
        subst hs'
        exact (updateDumpsterRating_ok hupd).2

/-- Witness for C1: creating the first review (rating 4) for the
example dumpster yields a store whose dumpster row carries
`rating = 4` and `reviewCount = 1`, the recomputed aggregates. -/
theorem review_mutations_recompute_aggregates_witness :
    aggConsistent
      ({ dumpsters := [{ exDumpster with rating := 4, reviewCount := 1 }],
         reviews := [⟨10, 0, 1, 4, "ok", false⟩], usages := [], cache := [] } : Store) 0 :=
  review_mutations_recompute_aggregates.1 ⟨[exDumpster], [], [], []⟩ 10 1 0 ⟨4, "ok"⟩
    { dumpsters := [{ exDumpster with rating := 4, reviewCount := 1 }],
      reviews := [⟨10, 0, 1, 4, "ok", false⟩], usages := [], cache := [] }
    ⟨10, 0, 1, 4, "ok", false⟩
    (by with_unfolding_all decide)

/-- C7: when the dumpster exists (as a non-deleted row) and the
(user, dumpster) pair already has a non-deleted review, a second review
`Create` by the same pair always fails with `BadRequest`
("you have already reviewed this dumpster") — whatever the existing
review's rating, the new request's rating, or the recomputation
oracle — and the store, in particular the existing review, is left
unchanged. -/
theorem duplicate_review_rejected (s : Store) (newId userId dumpsterId : Nat)
    (req : CreateReviewRequest) (r0 : Review) (dbFail : Bool)
    (hex : dumpsterExists s dumpsterId)
    (hm : r0 ∈ s.reviews) (hdel : r0.deleted = false)
    (huser : r0.userId = userId) (hdid : r0.dumpsterId = dumpsterId) :
    reviewCreate dbFail s newId userId dumpsterId req =
      (s, .error (AppError.badRequest "you have already reviewed this dumpster")) := by
  obtain ⟨d, hd⟩ := dumpsterExists_getByID hex
  have hsome : (reviewGetByUserAndDumpster s userId dumpsterId).isSome := by
    unfold reviewGetByUserAndDumpster
    rw [List.find?_isSome]
    exact ⟨r0, hm, by simp [hdel, huser, hdid]⟩
  obtain ⟨x, hx⟩ := Option.isSome_iff_exists.mp hsome
  unfold reviewCreate
  rw [hd, hx]

/-- Witness for C7: with review 10 by user 1 already present, a second
create by user 1 with a different rating is rejected and the store is
unchanged. -/
theorem duplicate_review_rejected_witness :
    reviewCreate false
      ⟨[exDumpster], [⟨10, 0, 1, 4, "ok", false⟩], [], []⟩ 11 1 0 ⟨2, "again"⟩ =
      (⟨[exDumpster], [⟨10, 0, 1, 4, "ok", false⟩], [], []⟩,
       .error (AppError.badRequest "you have already reviewed this dumpster")) :=
  duplicate_review_rejected ⟨[exDumpster], [⟨10, 0, 1, 4, "ok", false⟩], [], []⟩
    11 1 0 ⟨2, "again"⟩ ⟨10, 0, 1, 4, "ok", false⟩ false
    ⟨exDumpster, by decide, by decide, by decide⟩
    (by decide) (by decide) (by decide) (by decide)

/-- C8: when the rating recomputation fails (oracle on) after the
review write of a `Create`, `Update` or `Delete` has committed, the
operation returns an `Internal` error but the committed review write
survives in the store — the post-state is exactly the store with the
review mutation applied — while the dumpster rows (hence their
denormalized `rating`/`reviewCount`) are left untouched, i.e. stale. -/
theorem failed_recompute_not_rolled_back :
    (∀ (s : Store) (newId userId dumpsterId : Nat) (req : CreateReviewRequest),
       dumpsterExists s dumpsterId →
       reviewGetByUserAndDumpster s userId dumpsterId = none →
       reviewCreate true s newId userId dumpsterId req =
         (reviewRepoCreate s (newReviewFromDTO newId userId dumpsterId req),
          .error (AppError.internal "failed to update dumpster rating")) ∧
       (reviewRepoCreate s (newReviewFromDTO newId userId dumpsterId req)).dumpsters = s.dumpsters) ∧
    (∀ (s : Store) (userId reviewId : Nat) (req : UpdateReviewRequest) (review : Review),
       reviewGetByID s reviewId = .ok review → review.userId = userId →
       reviewUpdate true s userId reviewId req =
         (reviewRepoUpdate s (applyReviewUpdates review req),
          .error (AppError.internal "failed to update dumpster rating")) ∧
       (reviewRepoUpdate s (applyReviewUpdates review req)).dumpsters = s.dumpsters) ∧
    (∀ (s : Store) (userId reviewId : Nat) (review : Review),
       reviewGetByID s reviewId = .ok review → review.userId = userId →
       reviewDelete true s userId reviewId =
         (reviewRepoDelete s reviewId,
          .error (AppError.internal "failed to update dumpster rating")) ∧
       (reviewRepoDelete s reviewId).dumpsters = s.dumpsters) := by
  refine ⟨?_, ?_, ?_⟩
  · intro s newId userId dumpsterId req hex hnone
    obtain ⟨d, hd⟩ := dumpsterExists_getByID hex
    constructor
    · unfold reviewCreate
      rw [hd, hnone]
      rfl
    · rfl
  · intro s userId reviewId req review hg huser
    constructor
    · unfold reviewUpdate
      rw [hg]
      simp [huser]
      rfl
    · rfl
  · intro s userId reviewId review hg huser
    constructor
    · unfold reviewDelete
      rw [hg]
      simp [huser]
      rfl
    · rfl

/-- Witness for C8: a first create whose recomputation fails leaves the
new review committed, returns an `Internal` error, and the dumpster row
keeps its stale aggregates. -/
theorem failed_recompute_not_rolled_back_witness :
    reviewCreate true ⟨[exDumpster], [], [], []⟩ 10 1 0 ⟨4, "ok"⟩ =
      (reviewRepoCreate ⟨[exDumpster], [], [], []⟩ (newReviewFromDTO 10 1 0 ⟨4, "ok"⟩),
       .error (AppError.internal "failed to update dumpster rating")) ∧
    (reviewRepoCreate ⟨[exDumpster], [], [], []⟩ (newReviewFromDTO 10 1 0 ⟨4, "ok"⟩)).dumpsters =
      (⟨[exDumpster], [], [], []⟩ : Store).dumpsters :=
  failed_recompute_not_rolled_back.1 ⟨[exDumpster], [], [], []⟩ 10 1 0 ⟨4, "ok"⟩
    ⟨exDumpster, by decide, by decide, by decide⟩ (by decide)

/-- C6 (counterexample): with 45 matching rows and the limit parameter
unsupplied (0), the repository's effective limit is 20, so the claim
(`totalPages = ceil(total / limit)` with the defaulted limit) predicts
`ceil(45/20) = 3` — but the response built by the services reports
`totalPages = 45`, because the response builder divides by
`max(suppliedLimit, 1) = 1` instead. -/
theorem pagination_totalPages_counterexample :
    repoEffectiveLimit 0 = 20 ∧
    (buildListMeta 45 1 0).totalPages = 45 ∧
    ⌈((45 : Int) : ℚ) / ((20 : Int) : ℚ)⌉ = 3 ∧
    (45 : Int) ≠ (3 : Int) := by
  refine ⟨by decide, by decide, ?_, by decide⟩
  rw [← goCeilDiv_eq_ceil (by norm_num)]
  decide

/-- C6 (amended): every repository list query defaults the page to 1
when the supplied page is ≤ 0 and uses an effective limit of
`min(max(limit, 20), 100)` (default 20, ceiling 100), but the
response's `totalPages` equals `ceil(total / max(suppliedLimit, 1))` —
which agrees with `ceil(total / effectiveLimit)` only when the supplied
limit already lies in [20, 100]; in particular 45 matching rows with
`page = 1, limit = 20` do yield `totalPages = 3`. -/
theorem pagination_policy (total page limit : Int) :
    (page ≤ 0 → repoEffectivePage page = 1) ∧
    (limit ≤ 0 → repoEffectiveLimit limit = 20) ∧
    repoEffectiveLimit limit ≤ 100 ∧
    (buildListMeta total page limit).page = max page 1 ∧
    (buildListMeta total page limit).limit = max limit 1 ∧
    (buildListMeta total page limit).totalPages =
      ⌈(total : ℚ) / ((max limit 1 : Int) : ℚ)⌉ ∧
    (20 ≤ limit → limit ≤ 100 →
      (buildListMeta total page limit).totalPages =
        ⌈(total : ℚ) / ((repoEffectiveLimit limit : Int) : ℚ)⌉) ∧
    (buildListMeta 45 1 20).totalPages = 3 := by
  have heff : ∀ m : Int, 20 ≤ m → m ≤ 100 → repoEffectiveLimit m = m := by
    intro m hm1 hm2
    unfold repoEffectiveLimit
    rw [max_eq_left hm1, if_neg (by omega)]
  refine ⟨?_, ?_, ?_, rfl, rfl, ?_, ?_, by decide⟩
  · intro h
    unfold repoEffectivePage
    omega
  · intro h
    unfold repoEffectiveLimit
    rw [max_eq_right (by omega)]
    norm_num
  · unfold repoEffectiveLimit
    dsimp only
    split <;> omega
  · exact goCeilDiv_eq_ceil (by omega)
  · intro h1 h2
    rw [heff limit h1 h2]
    have hmax : max limit 1 = limit := max_eq_left (by omega)
    show goCeilDiv total (max limit 1) = _
    rw [hmax]
    exact goCeilDiv_eq_ceil (by omega)

/-- Witness for C6's amended theorem at concrete inputs: unsupplied
page and limit default to 1 and 20 in the repository; a supplied limit
of 50 makes the reported `totalPages` agree with the effective limit;
the 45-row / limit-20 example gives 3 pages. -/
theorem pagination_policy_witness :
    repoEffectivePage 0 = 1 ∧
    repoEffectiveLimit 0 = 20 ∧
    (buildListMeta 45 1 50).totalPages =
      ⌈((45 : Int) : ℚ) / ((repoEffectiveLimit 50 : Int) : ℚ)⌉ ∧
    (buildListMeta 45 1 20).totalPages = 3 :=
  ⟨(pagination_policy 45 0 0).1 (by decide),
   (pagination_policy 45 0 0).2.1 (by decide),
   (pagination_policy 45 1 50).2.2.2.2.2.2.1 (by decide) (by decide),
   (pagination_policy 45 1 20).2.2.2.2.2.2.2⟩

/-- C10: for every supplied limit `l` with `1 ≤ l < 20`, the repository
fetches the page window with an effective limit of `max(l, 20) = 20`
(so up to 20 rows per page), while the service response reports
`Limit = l` and `TotalPages = ceil(total / l)`; the effective limit
never equals `l`, so the reported partitioning disagrees with the rows
actually fetched. -/
theorem small_limit_partitioning_mismatch (l : Int) (h1 : 1 ≤ l) (h2 : l < 20) :
    repoEffectiveLimit l = 20 ∧
    (∀ (rows : List Dumpster) (page : Int),
        repoPageWindow page l rows =
          (rows.drop ((repoEffectivePage page - 1) * 20).toNat).take 20 ∧
        (repoPageWindow page l rows).length ≤ 20) ∧
    (∀ (total page : Int),
        (buildListMeta total page l).limit = l ∧
        (buildListMeta total page l).totalPages = ⌈(total : ℚ) / ((l : Int) : ℚ)⌉) ∧
    repoEffectiveLimit l ≠ l := by
  have heff : repoEffectiveLimit l = 20 := by
    unfold repoEffectiveLimit
    rw [max_eq_right (by omega), if_neg (by omega)]
  have hmax : max l 1 = l := max_eq_left (by omega)
  refine ⟨heff, ?_, ?_, by omega⟩
  · intro rows page
    constructor
    · unfold repoPageWindow
      rw [heff]
      rfl
    · unfold repoPageWindow
      rw [heff]
      exact (List.length_take _ _).trans_le (by norm_num)
  · intro total page
    refine ⟨?_, ?_⟩
    · show max l 1 = l
      exact hmax
    · show goCeilDiv total (max l 1) = _
      rw [hmax]
      exact goCeilDiv_eq_ceil (by omega)

/-- Witness for C10 at `l = 5`: the repository fetches with limit 20,
the response reports limit 5 and `ceil(45/5)` pages, and the two limits
disagree. -/
theorem small_limit_partitioning_mismatch_witness :
    repoEffectiveLimit 5 = 20 ∧
    (repoPageWindow 1 5 [exDumpster]).length ≤ 20 ∧
    (buildListMeta 45 1 5).limit = 5 ∧
    (buildListMeta 45 1 5).totalPages = ⌈((45 : Int) : ℚ) / ((5 : Int) : ℚ)⌉ ∧
    repoEffectiveLimit 5 ≠ 5 :=
  ⟨(small_limit_partitioning_mismatch 5 (by decide) (by decide)).1,
   ((small_limit_partitioning_mismatch 5 (by decide) (by decide)).2.1 [exDumpster] 1).2,
   ((small_limit_partitioning_mismatch 5 (by decide) (by decide)).2.2.1 45 1).1,
   ((small_limit_partitioning_mismatch 5 (by decide) (by decide)).2.2.1 45 1).2,
   (small_limit_partitioning_mismatch 5 (by decide) (by decide)).2.2.2⟩

/-- Six non-deleted dumpsters at pairwise distinct distances (encoded
in `latitude`, used as the distance valuation below). -/
def exSixDumpsters : List Dumpster :=
  [⟨0, 0, 1, true, 0, 0, 0, 0, false⟩, ⟨1, 0, 1, true, 0, 0, 1, 0, false⟩,
   ⟨2, 0, 1, true, 0, 0, 2, 0, false⟩, ⟨3, 0, 1, true, 0, 0, 3, 0, false⟩,
   ⟨4, 0, 1, true, 0, 0, 4, 0, false⟩, ⟨5, 0, 1, true, 0, 0, 5, 0, false⟩]

/-- C5 (counterexample): the claim says the result is capped at `limit`
results, but `FindNearby` applies `LIMIT max(req.Limit, 20)`: with six
qualifying dumpsters and a supplied limit of 5 the query returns all
six rows, exceeding the requested cap. -/
theorem findNearby_limit_counterexample :
    (findNearby (fun d => d.latitude) exSixDumpsters none defaultNearbyDistance 5).length = 6 ∧
    ¬ ((findNearby (fun d => d.latitude) exSixDumpsters none defaultNearbyDistance 5).length ≤ 5) := by
  constructor <;> decide

/-- C5 (amended): `FindNearby` returns exactly the non-deleted
dumpsters whose distance from the query point is strictly below
`maxDistance` (default 25 km when none is supplied), ordered ascending
by that distance, capped at `max(limit, 20)` results (not at `limit`:
the SQL applies `LIMIT max(req.Limit, 20)`); the distance column
computed by the SQL is exactly the claimed
`R·acos(cos(rad lat1)·cos(rad lat2)·cos(rad(lng2 − lng1)) +
sin(rad lat1)·sin(rad lat2))` expression.  The query pipeline is stated
for an arbitrary linearly ordered distance valuation `dist`; the SQL
instantiates it with `sqlDistance 6371 lat1 lng1 · ·` per row. -/
theorem findNearby_characterization :
    (∀ (β : Type) [LinearOrder β], ∀ (dist : Dumpster → β)
       (rows : List Dumpster) (maxDistance : Option β) (default25 : β) (reqLimit : Int),
       (∀ d ∈ findNearby dist rows maxDistance default25 reqLimit,
          d.deleted = false ∧ dist d < maxDistance.getD default25) ∧
       (findNearby dist rows maxDistance default25 reqLimit).Pairwise
         (fun a b => dist a ≤ dist b) ∧
       (findNearby dist rows maxDistance default25 reqLimit).length ≤
         (nearbyEffectiveLimit reqLimit).toNat ∧
       ((rows.filter (fun d => !d.deleted &&
            decide (dist d < maxDistance.getD default25))).length ≤
          (nearbyEffectiveLimit reqLimit).toNat →
        ∀ d ∈ rows, d.deleted = false → dist d < maxDistance.getD default25 →
          d ∈ findNearby dist rows maxDistance default25 reqLimit)) ∧
    (∀ r lat1 lng1 lat lng : ℝ,
       sqlDistance r lat1 lng1 lat lng = specDistance r lat1 lng1 lat lng) ∧
    (∀ (dist : Dumpster → ℚ) (rows : List Dumpster) (reqLimit : Int),
       findNearby dist rows none defaultNearbyDistance reqLimit =
         findNearby dist rows (some 25) defaultNearbyDistance reqLimit) := by
  refine ⟨?_, ?_, ?_⟩
  · intro β _ dist rows maxDistance default25 reqLimit
    haveI : IsTotal Dumpster (fun a b => dist a ≤ dist b) := ⟨fun a b => le_total _ _⟩
    haveI : IsTrans Dumpster (fun a b => dist a ≤ dist b) := ⟨fun _ _ _ => le_trans⟩
    refine ⟨?_, ?_, ?_, ?_⟩
    · intro d hd
      unfold findNearby at hd
      have hm := (List.mem_insertionSort _).mp (List.mem_of_mem_take hd)
      have := (List.mem_filter.mp hm).2
      simp only [Bool.and_eq_true, Bool.not_eq_true', decide_eq_true_eq] at this
      exact this
    · have hs := List.sorted_insertionSort (fun a b => dist a ≤ dist b)
        (rows.filter (fun d => !d.deleted && decide (dist d < maxDistance.getD default25)))
      exact List.Pairwise.take hs
    · unfold findNearby
      exact (List.length_take _ _).trans_le (min_le_left _ _)
    · intro hlen d hd hdel hdist
      unfold findNearby
      have hq : d ∈ rows.filter (fun d => !d.deleted &&
          decide (dist d < maxDistance.getD default25)) :=
        List.mem_filter.mpr ⟨hd, by simp [hdel, hdist]⟩
      have hsortlen : (List.insertionSort (fun a b => dist a ≤ dist b)
          (rows.filter (fun d => !d.deleted &&
            decide (dist d < maxDistance.getD default25)))).length ≤
          (nearbyEffectiveLimit reqLimit).toNat := by
        rw [List.length_insertionSort]
        exact hlen
      rw [List.take_of_length_le hsortlen]
      exact (List.mem_insertionSort _).mpr hq
  · intro r lat1 lng1 lat lng
    unfold sqlDistance specDistance radians
    have h : lng * Real.pi / 180 - lng1 * Real.pi / 180 = (lng - lng1) * Real.pi / 180 := by
      ring
    rw [h]
  · intro dist rows reqLimit
    rfl

/-- Witness for C5's amended theorem on a one-dumpster store with the
`latitude` field as distance valuation (10 < 25), no supplied maximum
and no supplied limit, plus the formula identity at a concrete point. -/
theorem findNearby_characterization_witness :
    (∀ d ∈ findNearby (fun d => d.latitude) [exDumpster] none defaultNearbyDistance 0,
       d.deleted = false ∧ (fun d : Dumpster => d.latitude) d <
         (Option.getD (none : Option ℚ) defaultNearbyDistance)) ∧
    (findNearby (fun d => d.latitude) [exDumpster] none defaultNearbyDistance 0).Pairwise
      (fun a b => a.latitude ≤ b.latitude) ∧
    exDumpster ∈ findNearby (fun d => d.latitude) [exDumpster] none defaultNearbyDistance 0 ∧
    sqlDistance 6371 0 0 0 0 = specDistance 6371 0 0 0 0 :=
  ⟨(findNearby_characterization.1 ℚ (fun d => d.latitude) [exDumpster] none
      defaultNearbyDistance 0).1,
   (findNearby_characterization.1 ℚ (fun d => d.latitude) [exDumpster] none
      defaultNearbyDistance 0).2.1,
   (findNearby_characterization.1 ℚ (fun d => d.latitude) [exDumpster] none
      defaultNearbyDistance 0).2.2.2 (by decide) exDumpster (by decide) (by decide) (by decide),
   findNearby_characterization.2.1 6371 0 0 0 0⟩

end WasteSpace
